import Mathlib

/-!
Verification of the air-quality normalization pipeline
(`src/ETL_AIR_QUALITY_API/transform.py`) against its specification.

The transform step is shallowly embedded: Python/JSON values become the
inductive type `Py`, pandas frames become lists of association-list rows,
and Python exceptions become `Except String`.  Python floats are modelled
as rationals extended with a NaN element (`PFloat`); this captures the
NaN-propagation and NaN-comparison semantics the claims depend on, while
abstracting from binary rounding (no claim depends on rounding).
-/

namespace ETLAir

/-- Python float abstraction: a rational number or NaN.  (Infinities are
not produced by any code path a claim exercises and are left out.) -/
inductive PFloat where
  | nan
  | val (q : ℚ)
deriving DecidableEq, Repr

/-- IEEE-style addition: NaN propagates. -/
def PFloat.add : PFloat → PFloat → PFloat
  | .nan, _ => .nan
  | _, .nan => .nan
  | .val a, .val b => .val (a + b)

/-- IEEE-style multiplication: NaN propagates (even against zero). -/
def PFloat.mul : PFloat → PFloat → PFloat
  | .nan, _ => .nan
  | _, .nan => .nan
  | .val a, .val b => .val (a * b)

instance : Add PFloat := ⟨PFloat.add⟩
instance : Mul PFloat := ⟨PFloat.mul⟩

/-- `x <= c` as Python evaluates it: any comparison with NaN is False. -/
def PFloat.leB : PFloat → ℚ → Bool
  | .nan, _ => false
  | .val a, c => decide (a ≤ c)

/-- `x > c` as Python evaluates it: any comparison with NaN is False. -/
def PFloat.gtB : PFloat → ℚ → Bool
  | .nan, _ => false
  | .val a, c => decide (c < a)

def PFloat.isNan : PFloat → Bool
  | .nan => true
  | .val _ => false

/-- Timestamps, as pandas `Timestamp` components.  The pipeline's raw
inputs carry UTC markers; time zones beyond UTC are not modelled. -/
structure TS where
  year : Nat
  month : Nat
  day : Nat
  hour : Nat
  minute : Nat
  second : Nat
deriving DecidableEq, Repr

/-- `Timestamp.floor("H")`: zero out minutes and seconds. -/
def TS.floorHour (t : TS) : TS := { t with minute := 0, second := 0 }

/-- Python / JSON runtime values as the transform step sees them:
JSON scalars and containers plus pandas timestamps.  `none` stands for
Python `None` (and for pandas missing markers where they arise). -/
inductive Py where
  | none
  | bool (b : Bool)
  | num (x : PFloat)
  | str (s : String)
  | list (xs : List Py)
  | dict (fs : List (String × Py))
  | timestamp (t : TS)
deriving Repr

mutual

def pyDecEq : (a b : Py) → Decidable (a = b)
  | .none, .none => isTrue rfl
  | .bool a, .bool b =>
    match decEq a b with
    | isTrue h => isTrue (by rw [h])
    | isFalse h => isFalse (by intro hh; injection hh; contradiction)
  | .num a, .num b =>
    match decEq a b with
    | isTrue h => isTrue (by rw [h])
    | isFalse h => isFalse (by intro hh; injection hh; contradiction)
  | .str a, .str b =>
    match decEq a b with
    | isTrue h => isTrue (by rw [h])
    | isFalse h => isFalse (by intro hh; injection hh; contradiction)
  | .list a, .list b =>
    match pyDecEqList a b with
    | isTrue h => isTrue (by rw [h])
    | isFalse h => isFalse (by intro hh; injection hh; contradiction)
  | .dict a, .dict b =>
    match pyDecEqFields a b with
    | isTrue h => isTrue (by rw [h])
    | isFalse h => isFalse (by intro hh; injection hh; contradiction)
  | .timestamp a, .timestamp b =>
    match decEq a b with
    | isTrue h => isTrue (by rw [h])
    | isFalse h => isFalse (by intro hh; injection hh; contradiction)
  | .none, .bool _ => isFalse (fun h => Py.noConfusion h)
  | .none, .num _ => isFalse (fun h => Py.noConfusion h)
  | .none, .str _ => isFalse (fun h => Py.noConfusion h)
  | .none, .list _ => isFalse (fun h => Py.noConfusion h)
  | .none, .dict _ => isFalse (fun h => Py.noConfusion h)
  | .none, .timestamp _ => isFalse (fun h => Py.noConfusion h)
  | .bool _, .none => isFalse (fun h => Py.noConfusion h)
  | .bool _, .num _ => isFalse (fun h => Py.noConfusion h)
  | .bool _, .str _ => isFalse (fun h => Py.noConfusion h)
  | .bool _, .list _ => isFalse (fun h => Py.noConfusion h)
  | .bool _, .dict _ => isFalse (fun h => Py.noConfusion h)
  | .bool _, .timestamp _ => isFalse (fun h => Py.noConfusion h)
  | .num _, .none => isFalse (fun h => Py.noConfusion h)
  | .num _, .bool _ => isFalse (fun h => Py.noConfusion h)
  | .num _, .str _ => isFalse (fun h => Py.noConfusion h)
  | .num _, .list _ => isFalse (fun h => Py.noConfusion h)
  | .num _, .dict _ => isFalse (fun h => Py.noConfusion h)
  | .num _, .timestamp _ => isFalse (fun h => Py.noConfusion h)
  | .str _, .none => isFalse (fun h => Py.noConfusion h)
  | .str _, .bool _ => isFalse (fun h => Py.noConfusion h)
  | .str _, .num _ => isFalse (fun h => Py.noConfusion h)
  | .str _, .list _ => isFalse (fun h => Py.noConfusion h)
  | .str _, .dict _ => isFalse (fun h => Py.noConfusion h)
  | .str _, .timestamp _ => isFalse (fun h => Py.noConfusion h)
  | .list _, .none => isFalse (fun h => Py.noConfusion h)
  | .list _, .bool _ => isFalse (fun h => Py.noConfusion h)
  | .list _, .num _ => isFalse (fun h => Py.noConfusion h)
  | .list _, .str _ => isFalse (fun h => Py.noConfusion h)
  | .list _, .dict _ => isFalse (fun h => Py.noConfusion h)
  | .list _, .timestamp _ => isFalse (fun h => Py.noConfusion h)
  | .dict _, .none => isFalse (fun h => Py.noConfusion h)
  | .dict _, .bool _ => isFalse (fun h => Py.noConfusion h)
  | .dict _, .num _ => isFalse (fun h => Py.noConfusion h)
  | .dict _, .str _ => isFalse (fun h => Py.noConfusion h)
  | .dict _, .list _ => isFalse (fun h => Py.noConfusion h)
  | .dict _, .timestamp _ => isFalse (fun h => Py.noConfusion h)
  | .timestamp _, .none => isFalse (fun h => Py.noConfusion h)
  | .timestamp _, .bool _ => isFalse (fun h => Py.noConfusion h)
  | .timestamp _, .num _ => isFalse (fun h => Py.noConfusion h)
  | .timestamp _, .str _ => isFalse (fun h => Py.noConfusion h)
  | .timestamp _, .list _ => isFalse (fun h => Py.noConfusion h)
  | .timestamp _, .dict _ => isFalse (fun h => Py.noConfusion h)

def pyDecEqList : (a b : List Py) → Decidable (a = b)
  | [], [] => isTrue rfl
  | [], _ :: _ => isFalse (fun h => List.noConfusion h)
  | _ :: _, [] => isFalse (fun h => List.noConfusion h)
  | x :: xs, y :: ys =>
    match pyDecEq x y with
    | isTrue h1 =>
      match pyDecEqList xs ys with
      | isTrue h2 => isTrue (by rw [h1, h2])
      | isFalse h2 => isFalse (by intro hh; injection hh; contradiction)
    | isFalse h1 => isFalse (by intro hh; injection hh; contradiction)

def pyDecEqFields : (a b : List (String × Py)) → Decidable (a = b)
  | [], [] => isTrue rfl
  | [], _ :: _ => isFalse (fun h => List.noConfusion h)
  | _ :: _, [] => isFalse (fun h => List.noConfusion h)
  | (k1, v1) :: xs, (k2, v2) :: ys =>
    match decEq k1 k2 with
    | isTrue hk =>
      match pyDecEq v1 v2 with
      | isTrue hv =>
        match pyDecEqFields xs ys with
        | isTrue ht => isTrue (by rw [hk, hv, ht])
        | isFalse ht => isFalse (by intro hh; injection hh; contradiction)
      | isFalse hv =>
        isFalse (by
          intro hh
          injection hh with h1 h2
          exact hv (congrArg Prod.snd h1))
    | isFalse hk =>
      isFalse (by
        intro hh
        injection hh with h1 h2
        exact hk (congrArg Prod.fst h1))

end

instance : DecidableEq Py := pyDecEq

instance {ε α : Type} [DecidableEq ε] [DecidableEq α] : DecidableEq (Except ε α) :=
  fun a b =>
    match a, b with
    | .ok x, .ok y =>
      match decEq x y with
      | isTrue h => isTrue (by rw [h])
      | isFalse h => isFalse (by intro hh; injection hh; contradiction)
    | .error x, .error y =>
      match decEq x y with
      | isTrue h => isTrue (by rw [h])
      | isFalse h => isFalse (by intro hh; injection hh; contradiction)
    | .ok _, .error _ => isFalse (fun h => Except.noConfusion h)
    | .error _, .ok _ => isFalse (fun h => Except.noConfusion h)

/-!
Character-list string helpers.  Lean's built-in `String.splitOn`,
`String.trim`, `String.replace` and `String.toNat?` are position-based
and do not reduce inside the kernel, so the pipeline's string handling
is re-implemented over `String.data`; this also matches Python's string
semantics directly.  Fuel arguments make the recursion structural; the
fuel is always sufficient (one unit per consumed character).
-/

def listPrefixOf : List Char → List Char → Bool
  | [], _ => true
  | _ :: _, [] => false
  | a :: as, b :: bs => a == b && listPrefixOf as bs

def splitFuel (sep : List Char) : Nat → List Char → List Char → List (List Char)
  | 0, rest, acc => [acc.reverse ++ rest]
  | _ + 1, [], acc => [acc.reverse]
  | fuel + 1, c :: cs, acc =>
    if listPrefixOf sep (c :: cs) then
      acc.reverse :: splitFuel sep fuel (List.drop (sep.length - 1) cs) []
    else splitFuel sep fuel cs (c :: acc)

/-- Python `s.split(sep)` for a non-empty separator (the separators the
code uses are all non-empty). -/
def pySplit (s sep : String) : List String :=
  if sep.data.isEmpty then [s]
  else (splitFuel sep.data (s.data.length + 1) s.data []).map (fun cs => String.mk cs)

def replFuel (pat rep : List Char) : Nat → List Char → List Char
  | 0, rest => rest
  | _ + 1, [] => []
  | fuel + 1, c :: cs =>
    if listPrefixOf pat (c :: cs) then
      rep ++ replFuel pat rep fuel (List.drop (pat.length - 1) cs)
    else c :: replFuel pat rep fuel cs

/-- Python `s.replace(pat, rep)` for a non-empty pattern. -/
def pyReplace (s pat rep : String) : String :=
  if pat.data.isEmpty then s
  else String.mk (replFuel pat.data rep.data (s.data.length + 1) s.data)

def isPySpace (c : Char) : Bool := c == ' ' || c == '\t' || c == '\n' || c == '\r'

/-- Python `s.strip()`. -/
def pyStrip (s : String) : String :=
  String.mk (((s.data.dropWhile isPySpace).reverse.dropWhile isPySpace).reverse)

/-- Python `s.lower()` (ASCII). -/
def pyLower (s : String) : String := String.mk (s.data.map Char.toLower)

/-- Digit-string to number (`int(s)` on a non-empty all-digit string). -/
def parseNatChars (cs : List Char) : Option Nat :=
  if cs.isEmpty then Option.none
  else if cs.all Char.isDigit then
    some (cs.foldl (fun n c => n * 10 + (c.toNat - 48)) 0)
  else Option.none

/-- Python truthiness (`bool(x)`) for the values the pipeline handles.
NaN is truthy in Python; empty containers and empty strings are falsy. -/
def pyTruthy : Py → Bool
  | .none => false
  | .bool b => b
  | .num x => match x with | .nan => true | .val q => decide (q ≠ 0)
  | .str s => decide (s ≠ "")
  | .list xs => !xs.isEmpty
  | .dict fs => !fs.isEmpty
  | .timestamp _ => true

/-- Python `a or b` on already-evaluated operands. -/
def pyOr (a b : Py) : Py := if pyTruthy a then a else b

/-- The fields of a dict value (empty for non-dicts; callers guard). -/
def Py.fields : Py → List (String × Py)
  | .dict fs => fs
  | _ => []

/-- First binding of a key in an association list. -/
def pyLookup (fs : List (String × Py)) (k : String) : Option Py :=
  (fs.find? (fun p => p.1 == k)).map (fun p => p.2)

/-- `d[k]` presence-aware lookup (`k in d` / `d.get(k)` distinction). -/
def pyGetOpt (d : Py) (k : String) : Option Py := pyLookup d.fields k

/-- `d.get(k)`: defaults to Python `None` when the key is missing. -/
def pyGet (d : Py) (k : String) : Py := (pyGetOpt d k).getD .none

/-- `k in d`. -/
def pyHasKey (d : Py) (k : String) : Bool := (pyGetOpt d k).isSome

def Py.isDict : Py → Bool
  | .dict _ => true
  | _ => false

def Py.isList : Py → Bool
  | .list _ => true
  | _ => false

def Py.isStr : Py → Bool
  | .str _ => true
  | _ => false

/-- Python hashability for the values the pipeline can place in a pandas
group key or `to_numeric` cell: containers (dict, list) are unhashable
and make `groupby` raise TypeError; every other value here is a hashable
scalar (and one `pd.to_numeric(..., errors="coerce")` accepts). -/
def Py.isHashable : Py → Bool
  | .dict _ => false
  | .list _ => false
  | _ => true

/-- `float(s)` on a string: optional sign, integer part, optional decimal
fraction.  Exponents and the special strings (nan/inf) are not produced by
any input a claim exercises and are treated as unparseable. -/
def parseFloatQ (s : String) : Option ℚ :=
  let t := pyStrip s
  let sgn : ℚ := if t.data.head? == some '-' then -1 else 1
  let body : List Char :=
    match t.data with
    | '-' :: rest => rest
    | '+' :: rest => rest
    | cs => cs
  match splitFuel ['.'] (body.length + 1) body [] with
  | [ip] =>
    if ip.isEmpty then Option.none
    else (parseNatChars ip).map (fun n => sgn * (n : ℚ))
  | [ip, fp] =>
    if ip.isEmpty && fp.isEmpty then Option.none
    else
      match (if ip.isEmpty then some 0 else parseNatChars ip),
            (if fp.isEmpty then some 0 else parseNatChars fp) with
      | some a, some b => some (sgn * ((a : ℚ) + (b : ℚ) / (10 : ℚ) ^ fp.length))
      | _, _ => Option.none
  | _ => Option.none

/-- `float(x)`: `Option.none` models the raised `TypeError`/`ValueError`. -/
def pyFloat : Py → Option PFloat
  | .none => Option.none
  | .bool b => some (.val (if b then 1 else 0))
  | .num x => some x
  | .str s => (parseFloatQ s).map .val
  | .list _ => Option.none
  | .dict _ => Option.none
  | .timestamp _ => Option.none

/-- `row.get(k, default)` on a dict-like row. -/
def rowGet (row : List (String × Py)) (k : String) (d : Py) : Py :=
  ((row.find? (fun p => p.1 == k)).map (fun p => p.2)).getD d

/-- Mapping of source parameter names to canonical columns
(`POLLUTANT_MAPPING` in transform.py, in dict insertion order). -/
def POLLUTANT_MAPPING : List (String × String) :=
  [("pm10", "pm10"), ("pm25", "pm2_5"), ("pm2_5", "pm2_5"),
   ("co", "carbon_monoxide"), ("no2", "nitrogen_dioxide"),
   ("so2", "sulphur_dioxide"), ("o3", "ozone"),
   ("uv_index", "uv_index"), ("uvi", "uv_index"), ("uv", "uv_index")]

/-- Canonical pollutant columns (`POLLUTANT_COLS` in transform.py). -/
def POLLUTANT_COLS : List String :=
  ["pm10", "pm2_5", "carbon_monoxide", "nitrogen_dioxide",
   "sulphur_dioxide", "ozone", "uv_index"]

/-- `calculate_aqi` (transform.py lines 42-59): AQI category from PM2.5. -/
def calculate_aqi (pm2_5 : Py) : Option String :=
  match pm2_5 with
  | .none => Option.none
  | x =>
    match pyFloat x with
    | Option.none => Option.none
    | some pm =>
      some (if pm.leB 50 then "Good"
            else if pm.leB 100 then "Moderate"
            else if pm.leB 200 then "Unhealthy"
            else if pm.leB 300 then "Very Unhealthy"
            else "Hazardous")

/-- The inner coercion `s(x)` of `calculate_severity`:
`float(x) if x is not None else 0.0`, with exceptions giving `0.0`. -/
def sevCoerce (x : Py) : PFloat :=
  match x with
  | .none => .val 0
  | y => (pyFloat y).getD (.val 0)

/-- `calculate_severity` (transform.py lines 62-76): weighted pollutant sum.
NaN cell values propagate through float arithmetic. -/
def calculate_severity (row : List (String × Py)) : PFloat :=
  sevCoerce (rowGet row "pm2_5" (Py.num (.val 0))) * .val 5 +
  sevCoerce (rowGet row "pm10" (Py.num (.val 0))) * .val 3 +
  sevCoerce (rowGet row "nitrogen_dioxide" (Py.num (.val 0))) * .val 4 +
  sevCoerce (rowGet row "sulphur_dioxide" (Py.num (.val 0))) * .val 4 +
  sevCoerce (rowGet row "carbon_monoxide" (Py.num (.val 0))) * .val 2 +
  sevCoerce (rowGet row "ozone" (Py.num (.val 0))) * .val 3

/-- `calculate_risk` (transform.py lines 79-90): risk bucket from severity.
`float(severity)` failing returns `None`; NaN fails both strict
comparisons and lands in "Low Risk". -/
def calculate_risk (severity : Py) : Option String :=
  match pyFloat severity with
  | Option.none => Option.none
  | some sev =>
    some (if sev.gtB 400 then "High Risk"
          else if sev.gtB 200 then "Moderate Risk"
          else "Low Risk")

/-- Python `str.title()` restricted to the ASCII alphabet: a letter is
uppercased after a non-letter and lowercased otherwise. -/
def pyTitleAux : Bool → List Char → List Char
  | _, [] => []
  | prevAlpha, c :: cs =>
    let c2 := if c.isAlpha then (if prevAlpha then c.toLower else c.toUpper) else c
    c2 :: pyTitleAux c.isAlpha cs

def pyTitle (s : String) : String := String.mk (pyTitleAux false s.data)

/-- The OpenAQ-v2 block of `_infer_city_from_payload` (transform.py
lines 105-112): `some` exactly when the function returns there. -/
def inferV2 (payload : Py) : Option Py :=
  match pyGet payload "results" with
  | .list (first :: _) =>
    if first.isDict then
      if pyTruthy (pyGet first "city") then some (pyGet first "city")
      else if pyTruthy (pyGet first "location") then some (pyGet first "location")
      else Option.none
    else Option.none
  | _ => Option.none

/-- The OpenAQ-v3 block of `_infer_city_from_payload` (transform.py
lines 113-123), including the final `return None`. -/
def inferV3 (payload : Py) : Py :=
  match pyGet payload "locations" with
  | .list (first :: _) =>
    if first.isDict then
      if pyTruthy (pyGet first "city") then pyGet first "city"
      else if pyTruthy (pyGet first "name") then pyGet first "name"
      else .none
    else .none
  | _ => .none

/-- `_infer_city_from_payload` (transform.py lines 93-123). -/
def infer_city_from_payload (payload : Py) : Py :=
  if !payload.isDict then .none
  else if pyTruthy (pyGet payload "city") then pyGet payload "city"
  else if pyTruthy (pyGet payload "meta") && (pyGet payload "meta").isDict
          && pyTruthy (pyGet (pyGet payload "meta") "city") then
    pyGet (pyGet payload "meta") "city"
  else
    match inferV2 payload with
    | some v => v
    | Option.none => inferV3 payload

/-- `_infer_city_from_filename` (transform.py lines 126-137), taking the
path stem (filename without directory and suffix) as input. -/
def infer_city_from_filename (stem : String) : Py :=
  let parts := pySplit stem "_raw_"
  match parts with
  | p0 :: _ =>
    if p0 ≠ "" then .str (pyTitle (pyReplace p0 "_" " "))
    else
      let token := (pySplit stem "_").headD ""
      if token ≠ "" then .str (pyTitle (pyReplace token "_" " ")) else .none
  | [] =>
    let token := (pySplit stem "_").headD ""
    if token ≠ "" then .str (pyTitle (pyReplace token "_" " ")) else .none

/-- City resolution as performed at transform.py line 150:
`city_name or _infer_city_from_payload(payload) or
_infer_city_from_filename(p) or "Unknown"`. -/
def resolveCity (city_name : Py) (payload : Py) (stem : String) : Py :=
  pyOr city_name (pyOr (infer_city_from_payload payload)
    (pyOr (infer_city_from_filename stem) (.str "Unknown")))

/-- Modelled from the spec: the "top-level city field" extractor of the
City Resolver precedence list. -/
def specCityTop (payload : Py) : Py := pyGet payload "city"

/-- Modelled from the spec: the nested "meta.city" extractor. -/
def specCityMeta (payload : Py) : Py :=
  if (pyGet payload "meta").isDict then pyGet (pyGet payload "meta") "city" else .none

/-- Modelled from the spec: the v2-shape extractor — first element of
"results", its "city" else "location" field. -/
def specCityV2 (payload : Py) : Py :=
  match pyGet payload "results" with
  | .list (first :: _) =>
    if first.isDict then pyOr (pyGet first "city") (pyGet first "location") else .none
  | _ => .none

/-- Modelled from the spec: the v3-shape extractor — first element of
"locations", its "city" else "name" field. -/
def specCityV3 (payload : Py) : Py :=
  match pyGet payload "locations" with
  | .list (first :: _) =>
    if first.isDict then pyOr (pyGet first "city") (pyGet first "name") else .none
  | _ => .none

/-- Modelled from the spec: City Resolver as an ordered list of extractors
tried in sequence, first truthy match wins, terminating in the literal
"Unknown" (spec section 4.2 and design note in section 9). -/
def resolveCitySpec (city_name : Py) (payload : Py) (stem : String) : Py :=
  let cands : List Py :=
    [city_name, specCityTop payload, specCityMeta payload,
     specCityV2 payload, specCityV3 payload, infer_city_from_filename stem]
  (cands.find? pyTruthy).getD (.str "Unknown")

def parseNatField (s : String) : Option Nat := parseNatChars s.data

def isLeapYear (y : Nat) : Bool :=
  (y % 4 == 0 && y % 100 != 0) || y % 400 == 0

def daysInMonth (y mo : Nat) : Nat :=
  if mo == 2 then (if isLeapYear y then 29 else 28)
  else if mo == 4 || mo == 6 || mo == 9 || mo == 11 then 30
  else 31

/-- Date validation matching what `pd.to_datetime` accepts without
raising: a real calendar date (month 1-12, day within the month,
Gregorian leap years) whose year lies strictly inside the pandas
nanosecond `Timestamp` range (1677-09-21 to 2262-04-11); years are
conservatively restricted to 1678-2261 so every accepted date is
representable at any unit. -/
def parseDate (d : String) : Option (Nat × Nat × Nat) :=
  match pySplit d "-" with
  | [y, mo, da] => do
    let yn ← parseNatField y
    let mn ← parseNatField mo
    let dn ← parseNatField da
    if 1678 ≤ yn && yn ≤ 2261 && 1 ≤ mn && mn ≤ 12
        && 1 ≤ dn && dn ≤ daysInMonth yn mn then
      pure (yn, mn, dn)
    else Option.none
  | _ => Option.none

def parseTimeOfDay (t : String) : Option (Nat × Nat × Nat) :=
  match pySplit t ":" with
  | [h, mi] => do
    let hn ← parseNatField h
    let mn ← parseNatField mi
    if hn ≤ 23 && mn ≤ 59 then pure (hn, mn, 0) else Option.none
  | [h, mi, se] => do
    let hn ← parseNatField h
    let mn ← parseNatField mi
    let sn ← parseNatField se
    if hn ≤ 23 && mn ≤ 59 && sn ≤ 59 then pure (hn, mn, sn) else Option.none
  | _ => Option.none

/-- ISO-8601 timestamp parsing covering the forms the raw files carry
(`YYYY-MM-DD`, optionally `THH:MM[:SS]`, optional trailing `Z`).
Success is deliberately a subset of what `pd.to_datetime` parses: a
string this accepts is a calendar-valid, in-range ISO timestamp, which
the real parser accepts without raising (the converse fails only for
exotic formats no claim exercises). -/
def parseIso (s : String) : Option TS :=
  let core :=
    match s.data.getLast? with
    | some 'Z' => String.mk s.data.dropLast
    | _ => s
  match pySplit core "T" with
  | [d] => (parseDate d).map (fun v => ⟨v.1, v.2.1, v.2.2, 0, 0, 0⟩)
  | [d, t] => do
    let v ← parseDate d
    let w ← parseTimeOfDay t
    pure ⟨v.1, v.2.1, v.2.2, w.1, w.2.1, w.2.2⟩
  | _ => Option.none

/-- `pd.to_datetime(t)` in the TIME_SERIES path (no `errors="coerce"`):
an unparseable value raises.  Non-string scalars (epoch numbers) are not
exercised by any claim and are treated as unparseable. -/
def toDatetimeStrict : Py → Except String TS
  | .str s =>
    match parseIso s with
    | some t => .ok t
    | Option.none => .error "ValueError: could not parse time"
  | .timestamp t => .ok t
  | _ => .error "TypeError: could not convert to datetime"

/-- `pd.to_datetime(x, errors="coerce", utc=True)` per cell: unparseable
becomes missing (NaT). -/
def parseTimeCoerce : Py → Option TS
  | .str s => parseIso s
  | .timestamp t => some t
  | _ => Option.none

/-- Python `for x in v`: lists yield elements, strings yield one-character
strings, dicts yield their keys; scalars raise TypeError. -/
def iterElems : Py → Except String (List Py)
  | .list xs => .ok xs
  | .str s => .ok (s.data.map (fun c => Py.str (String.mk [c])))
  | .dict fs => .ok (fs.map (fun kv => Py.str kv.1))
  | _ => .error "TypeError: object is not iterable"

def Py.elems : Py → List Py
  | .list xs => xs
  | _ => []

/-- Python dict assignment `rec[k] = v`: update in place, else append. -/
def recSet (r : List (String × Py)) (k : String) (v : Py) : List (String × Py) :=
  match r with
  | [] => [(k, v)]
  | (k1, v1) :: rest => if k1 == k then (k1, v) :: rest else (k1, v1) :: recSet rest k v

/-- One TIME_SERIES record (transform.py lines 159-172): iterate the
alias mapping in dict order, assigning `rec[dest]` on every iteration —
a later alias that misses overwrites an earlier hit with `None`. -/
def tsRec (city : Py) (t : TS) (hourly : Py) (i : Nat) : List (String × Py) :=
  POLLUTANT_MAPPING.foldl (fun rec sd =>
    let values :=
      if pyHasKey hourly sd.1 then pyGet hourly sd.1
      else if pyHasKey hourly sd.2 then pyGet hourly sd.2
      else Py.none
    let v :=
      match values with
      | .list xs => match xs.get? i with | some x => x | Option.none => Py.none
      | _ => Py.none
    recSet rec sd.2 v)
    [("city", city), ("time", Py.timestamp t)]

/-- One raw measurement tuple (city, time, parameter, value), all still
untyped Python values. -/
structure MTuple where
  city : Py
  time : Py
  parameter : Py
  value : Py
deriving Repr, DecidableEq

/-- `m.get("lastUpdated") or (m.get("date") and m["date"].get("utc")) or
m.get("date")` — raises AttributeError when `date` is truthy but not a
dict. -/
def dateField (m : Py) : Except String Py :=
  let lu := pyGet m "lastUpdated"
  if pyTruthy lu then .ok lu
  else
    let d := pyGet m "date"
    if pyTruthy d then
      match d with
      | .dict _ =>
        let u := pyGet d "utc"
        .ok (if pyTruthy u then u else d)
      | _ => .error "AttributeError: date value has no .get"
    else .ok d

/-- v2 measurement entry → tuple (transform.py lines 182-187). -/
def tupleV2 (cityHere : Py) (m : Py) : Except String MTuple :=
  if !m.isDict then .error "AttributeError: measurement entry has no .get"
  else do
    let t ← dateField m
    pure ⟨cityHere, t,
      pyOr (pyGet m "parameter") (pyOr (pyGet m "param") (pyGet m "name")),
      pyGet m "value"⟩

/-- v3 parameters entry → tuple (transform.py lines 193-197). -/
def tupleV3P (loc cityHere : Py) (p : Py) : Except String MTuple :=
  if !p.isDict then .error "AttributeError: parameter entry has no .get"
  else
    .ok ⟨cityHere,
      pyOr (pyGet p "lastUpdated") (pyOr (pyGet p "lastUpdatedAt") (pyGet loc "lastUpdated")),
      pyOr (pyGet p "parameter") (pyGet p "name"),
      if pyHasKey p "lastValue" then pyGet p "lastValue" else pyGet p "value"⟩

/-- v3 measurements entry → tuple (transform.py lines 198-202). -/
def tupleV3M (cityHere : Py) (m : Py) : Except String MTuple :=
  if !m.isDict then .error "AttributeError: measurement entry has no .get"
  else do
    let t ← dateField m
    pure ⟨cityHere, t, pyOr (pyGet m "parameter") (pyGet m "name"), pyGet m "value"⟩

/-- UNKNOWN-shape discovered entry → tuple (transform.py lines 217-221). -/
def tupleWalk (cityHere : Py) (m : Py) : Except String MTuple :=
  if !m.isDict then .error "AttributeError: measurement entry has no .get"
  else do
    let t ← dateField m
    pure ⟨cityHere, t,
      pyOr (pyGet m "parameter") (pyOr (pyGet m "name") (pyGet m "param")),
      pyGet m "value"⟩

/-- The value iterated by the v2 loop: `loc.get("measurements", [])`. -/
def v2MeasValue (loc : Py) : Py :=
  match pyGetOpt loc "measurements" with
  | Option.none => Py.list []
  | some v => v

/-- The value iterated by the v3 measurements loop:
`loc.get("measurements", []) or []`. -/
def v3MeasValue (loc : Py) : Py :=
  match pyGetOpt loc "measurements" with
  | Option.none => Py.list []
  | some v => if pyTruthy v then v else Py.list []

/-- The value iterated by the v3 parameters loop:
`loc.get("parameters") or []`. -/
def v3ParamsValue (loc : Py) : Py :=
  if pyTruthy (pyGet loc "parameters") then pyGet loc "parameters" else Py.list []

/-- v2 collection loop (transform.py lines 179-187). -/
def collectV2 (city : Py) (locs : List Py) : Except String (List MTuple) := do
  let ls ← locs.mapM (fun loc => do
    if !loc.isDict then throw "AttributeError: results entry has no .get"
    else
      let loc_city := pyOr (pyGet loc "city") (pyOr (pyGet loc "location") city)
      let elems ← iterElems (v2MeasValue loc)
      elems.mapM (tupleV2 loc_city))
  pure ls.flatten

/-- v3 collection loop (transform.py lines 189-202). -/
def collectV3 (city : Py) (locs : List Py) : Except String (List MTuple) := do
  let ls ← locs.mapM (fun loc => do
    if !loc.isDict then throw "AttributeError: locations entry has no .get"
    else
      let loc_city := pyOr (pyGet loc "city") (pyOr (pyGet loc "name") city)
      let pElems ← iterElems (v3ParamsValue loc)
      let t1 ← pElems.mapM (tupleV3P loc loc_city)
      let mElems ← iterElems (v3MeasValue loc)
      let t2 ← mElems.mapM (tupleV3M loc_city)
      pure (t1 ++ t2))
  pure ls.flatten

/-- `_walk_for_measurements` (transform.py lines 206-216): recursively
yield elements of any list held under a key named (case-insensitively)
"measurements" or "values". -/
def walkMeasurements : Py → List Py
  | .dict fs =>
    fs.attach.flatMap (fun x =>
      if ((pyLower x.1.1 == "measurements") || (pyLower x.1.1 == "values")) && x.1.2.isList
      then x.1.2.elems
      else walkMeasurements x.1.2)
  | .list xs => xs.attach.flatMap (fun x => walkMeasurements x.1)
  | _ => []
decreasing_by
  · have h1 := List.sizeOf_lt_of_mem x.2
    have h2 : sizeOf x.1.2 < sizeOf x.1 := by
      obtain ⟨⟨k, v⟩, hk⟩ := x
      simp only [Prod.mk.sizeOf_spec]
      omega
    simp only [Py.dict.sizeOf_spec]
    omega
  · have h1 := List.sizeOf_lt_of_mem x.2
    simp only [Py.list.sizeOf_spec]
    omega

/-- Shape dispatch of the measurement-collecting half of
`flatten_city_json` (transform.py lines 177-221).  Only called with a
dict payload (a non-dict payload raises earlier, at line 155). -/
def collectMeasurements (payload city : Py) : Except String (List MTuple) :=
  if pyHasKey payload "results" && (pyGet payload "results").isList then
    collectV2 city (pyGet payload "results").elems
  else if pyHasKey payload "locations" && (pyGet payload "locations").isList then
    collectV3 city (pyGet payload "locations").elems
  else
    (walkMeasurements payload).mapM (tupleWalk city)

/-- `astype(str)` per cell.  Container and float reprs are abstracted
(no claim exercises a non-string parameter name). -/
def pyStr : Py → String
  | .str s => s
  | .none => "None"
  | .bool true => "True"
  | .bool false => "False"
  | .num (.val q) => toString q
  | .num .nan => "nan"
  | .list _ => "list"
  | .dict _ => "dict"
  | .timestamp _ => "Timestamp"

/-- Parameter normalization (transform.py lines 234-239): strip and
lower-case, exact-replace through the alias dict, turn `.`/`-` into `_`,
then map through the alias dict again (unknown keys pass through). -/
def normalizeParam (p : Py) : String :=
  let s1 := pyLower (pyStrip (pyStr p))
  let s2 :=
    match POLLUTANT_MAPPING.find? (fun kv => kv.1 == s1) with
    | some kv => kv.2
    | Option.none => s1
  let s3 := pyReplace (pyReplace s2 "." "_") "-" "_"
  match POLLUTANT_MAPPING.find? (fun kv => kv.1 == s3) with
  | some kv => kv.2
  | Option.none => s3

/-- `pd.to_numeric(x, errors="coerce")` per cell. -/
def toNumericCoerce : Py → PFloat
  | .num x => x
  | .bool b => .val (if b then 1 else 0)
  | .str s => match parseFloatQ s with | some q => .val q | Option.none => .nan
  | .none => .nan
  | .list _ => .nan
  | .dict _ => .nan
  | .timestamp _ => .nan

/-- A measurement tuple after time parsing, hour flooring, parameter
normalization and numeric coercion (transform.py lines 227-241). -/
structure PrepRow where
  city : Py
  hourT : TS
  pnorm : String
  vnum : PFloat
deriving Repr, DecidableEq

def prepTuples (ms : List MTuple) : List PrepRow :=
  ms.filterMap (fun m =>
    (parseTimeCoerce m.time).map (fun t =>
      ⟨m.city, t.floorHour, normalizeParam m.parameter, toNumericCoerce m.value⟩))

/-- groupby(["city","time_hour","parameter_norm"]).mean(): NaN values
are skipped; an all-NaN group has a NaN mean. -/
def groupMean (pr : List PrepRow) (c : Py) (h : TS) (col : String) : PFloat :=
  let vs := (pr.filter (fun r =>
    decide (r.city = c) && decide (r.hourT = h) && decide (r.pnorm = col))).map PrepRow.vnum
  let fin := vs.filter (fun v => !v.isNan)
  match fin with
  | [] => .nan
  | _ =>
    .val (((fin.map (fun v => match v with | .val q => q | .nan => 0)).sum) / (fin.length : ℚ))

/-- The success path of the Hourly Aggregator (transform.py lines
223-262): pivot the mean per (city, hour, parameter) into one wide row
per (city, hour), filling canonical columns absent from the pivot as
missing.  This is the value computed when the stage does not raise;
`hourlyAggregateE` below adds the stage's error paths and is what
`flatten_city_json` calls.  Row order is first-occurrence order (pandas
sorts group keys), and `pivot_table`'s dropping of all-NaN rows is not
modelled — both affect only which rows appear, never their shape or
keys, and no claim depends on them. -/
def hourlyAggregate (ms : List MTuple) : List (List (String × Py)) :=
  let pr := prepTuples ms
  let keys := (pr.map (fun r => (r.city, r.hourT))).dedup
  keys.map (fun ch =>
    [("city", ch.1), ("time", Py.timestamp ch.2)] ++
    POLLUTANT_COLS.map (fun col =>
      (col,
       if pr.any (fun r =>
            decide (r.city = ch.1) && decide (r.hourT = ch.2) && decide (r.pnorm = col))
       then Py.num (groupMean pr ch.1 ch.2 col)
       else Py.none)))

/-- The Hourly Aggregator with its error paths.  On the rows surviving
the time dropna (transform.py line 228; an empty survivor set returns
early at line 230 and reaches neither raise point):
`pd.to_numeric(dfm["value"], ...)` at line 241 raises TypeError on
container (dict/list) values, and the groupby at line 245 raises
TypeError when a group key — only the city can be non-scalar — is
unhashable.  The to_numeric raise comes first in program order. -/
def hourlyAggregateE (ms : List MTuple) : Except String (List (List (String × Py))) :=
  if (ms.filter (fun m => (parseTimeCoerce m.time).isSome)).all
      (fun m => m.value.isHashable) then
    if (ms.filter (fun m => (parseTimeCoerce m.time).isSome)).all
        (fun m => m.city.isHashable) then
      .ok (hourlyAggregate ms)
    else .error "TypeError: unhashable type in groupby key"
  else .error "TypeError: Invalid object type in to_numeric"

/-- A pandas DataFrame: a column header plus association-list rows. -/
structure Frame where
  header : List String
  rows : List (List (String × Py))
deriving Repr, DecidableEq

def canonHeader : List String := ["city", "time"] ++ POLLUTANT_COLS

/-- `flatten_city_json` (transform.py lines 140-265).  The `parsed`
argument is the result of `json.load`: `Option.none` models unparseable
file content, whose exception propagates. -/
def flatten_city_json (parsed : Option Py) (stem : String) : Except String Frame :=
  match parsed with
  | Option.none => .error "json.JSONDecodeError: unparseable file content"
  | some payload =>
    let city := resolveCity .none payload stem
    if !payload.isDict then .error "AttributeError: payload has no .get"
    else
      let hourly := pyGet payload "hourly"
      if hourly.isDict && pyTruthy (pyGet hourly "time") then do
        let elems ← iterElems (pyGet hourly "time")
        let rows ← elems.enum.mapM (fun it => do
          let ts ← toDatetimeStrict it.2
          pure (tsRec city ts hourly it.1))
        pure ⟨canonHeader, rows⟩
      else do
        let ms ← collectMeasurements payload city
        let rows ← hourlyAggregateE ms
        pure ⟨canonHeader, rows⟩

/-- `pd.notnull` per cell. -/
def pyNotNull : Py → Bool
  | .none => false
  | .num .nan => false
  | _ => true

def optToPy : Option String → Py
  | some s => .str s
  | Option.none => .none

/-- `pd.to_numeric(df[col], errors="coerce")` over the pollutant columns
(transform.py lines 291-292). -/
def coerceRow (row : List (String × Py)) : List (String × Py) :=
  row.map (fun kv =>
    if POLLUTANT_COLS.contains kv.1 then (kv.1, Py.num (toNumericCoerce kv.2)) else kv)

/-- Derived features (transform.py lines 297-301): AQI (guarded by
`pd.notnull`), severity (NaN cells propagate), risk, hour-of-day. -/
def enrichRow (row : List (String × Py)) : List (String × Py) :=
  let pm := rowGet row "pm2_5" Py.none
  let aqiv := if pyNotNull pm then optToPy (calculate_aqi pm) else Py.none
  let row1 := row ++ [("AQI", aqiv)]
  let sev := calculate_severity row1
  let row2 := row1 ++ [("severity", Py.num sev)]
  let row3 := row2 ++ [("risk", optToPy (calculate_risk (Py.num sev)))]
  let hourv :=
    match rowGet row "time" Py.none with
    | .timestamp t => Py.num (.val t.hour)
    | _ => Py.none
  row3 ++ [("hour", hourv)]

/-- Header written on the no-data path (transform.py line 279): note the
tenth column is named "aqi_category" there. -/
def emptyHeader : List String :=
  ["city", "time"] ++ POLLUTANT_COLS ++ ["aqi_category", "severity", "risk", "hour"]

/-- Header produced on the non-empty path (transform.py lines 297-301):
the derived columns are "AQI", "severity", "risk", "hour". -/
def fullHeader : List String :=
  ["city", "time"] ++ POLLUTANT_COLS ++ ["AQI", "severity", "risk", "hour"]

/-- `transform_files` (transform.py lines 268-306).  Input: per file, the
parsed payload (`Option.none` for unparseable content) and the filename
stem.  A file-level exception propagates and aborts the run. -/
def transform_files (files : List (Option Py × String)) : Except String Frame := do
  let frames ← files.mapM (fun f => flatten_city_json f.1 f.2)
  let nonEmpty := frames.filter (fun fr => !fr.rows.isEmpty)
  if nonEmpty.isEmpty then
    pure ⟨emptyHeader, []⟩
  else
    let rows := (nonEmpty.map Frame.rows).flatten
    let rows := rows.map coerceRow
    let rows := rows.filter (fun r =>
      POLLUTANT_COLS.any (fun c => pyNotNull (rowGet r c Py.none)))
    pure ⟨fullHeader, rows.map enrichRow⟩

/-- A value safe as a raw time cell for `pd.to_datetime(...,
errors="coerce")`: strings parse or coerce to NaT, None becomes NaT,
numbers become epoch timestamps.  Containers and booleans are
conservatively excluded (the coerce behavior on those is
version-dependent and can raise). -/
def timeValOK : Py → Bool
  | .str _ => true
  | .none => true
  | .num _ => true
  | _ => false

/-- Per-measurement well-formedness for the claim-C1 analysis: the
expression `m.get("lastUpdated") or (m.get("date") and
m["date"].get("utc")) or m.get("date")` neither raises (a truthy `date`
must be a dict) nor yields a value outside `timeValOK` (so the coerce
parse at transform.py line 227 is safe): a truthy `lastUpdated` must be
a safe time value; otherwise a truthy `date` must be a dict with a
truthy, safe "utc" field (a falsy "utc" would make the dict itself the
time value); otherwise the falsy `date` value itself must be safe. -/
def dateOK (m : Py) : Bool :=
  if pyTruthy (pyGet m "lastUpdated") then timeValOK (pyGet m "lastUpdated")
  else if pyTruthy (pyGet m "date") then
    (pyGet m "date").isDict &&
      (if pyTruthy (pyGet (pyGet m "date") "utc")
       then timeValOK (pyGet (pyGet m "date") "utc")
       else false)
  else timeValOK (pyGet m "date")

/-- A well-formed measurement entry: a dict, with a safe time expression
and a non-container value (so `pd.to_numeric` at line 241 cannot
raise). -/
def mOK (m : Py) : Bool := m.isDict && dateOK m && (pyGet m "value").isHashable

/-- A well-formed v3 parameters entry: a dict whose chosen value
(`lastValue` if present, else `value`) is a non-container and whose time
expression yields a safe value. -/
def pOK (loc p : Py) : Bool :=
  p.isDict
  && (if pyHasKey p "lastValue" then pyGet p "lastValue" else pyGet p "value").isHashable
  && timeValOK (pyOr (pyGet p "lastUpdated")
       (pyOr (pyGet p "lastUpdatedAt") (pyGet loc "lastUpdated")))

/-- The v2 "measurements" value is absent or a list of well-formed
measurement dicts. -/
def measOptOkV2 (o : Option Py) : Bool :=
  match o with
  | Option.none => true
  | some (.list xs) => xs.all mOK
  | some _ => false

/-- A truthy v3 "parameters" value must be a list of well-formed
parameter entries. -/
def paramsOk (loc v : Py) : Bool :=
  match v with
  | .list ps => ps.all (pOK loc)
  | _ => false

/-- A truthy v3 "measurements" value must be a list of well-formed
measurement dicts. -/
def measListOk (v : Py) : Bool :=
  match v with
  | .list xs => xs.all mOK
  | _ => false

/-- Payloads on which `flatten_city_json` cannot raise: a decidable
sufficient condition.  The payload is a dict; TIME_SERIES times are a
list of calendar-valid in-range ISO strings; measurement and location
entries are dicts with safe time expressions and non-container values;
and on the measurement shapes the per-location city label (the value
the groupby will hash) is a non-container, taking the same
city/location/name-or-file-city fallback the code takes.  The filename
stem enters because the fallback city is derived from it. -/
def wellFormedPayload (payload : Py) (stem : String) : Bool :=
  payload.isDict &&
  (let hourly := pyGet payload "hourly"
   if hourly.isDict && pyTruthy (pyGet hourly "time") then
     match pyGet hourly "time" with
     | .list ts => ts.all (fun t => match t with | .str s => (parseIso s).isSome | _ => false)
     | _ => false
   else if pyHasKey payload "results" && (pyGet payload "results").isList then
     (pyGet payload "results").elems.all (fun loc =>
       loc.isDict && measOptOkV2 (pyGetOpt loc "measurements") &&
       (pyOr (pyGet loc "city") (pyOr (pyGet loc "location")
         (resolveCity Py.none payload stem))).isHashable)
   else if pyHasKey payload "locations" && (pyGet payload "locations").isList then
     (pyGet payload "locations").elems.all (fun loc =>
       loc.isDict &&
       (!pyTruthy (pyGet loc "parameters") || paramsOk loc (pyGet loc "parameters")) &&
       (match pyGetOpt loc "measurements" with
        | Option.none => true
        | some v => !pyTruthy v || measListOk v) &&
       (pyOr (pyGet loc "city") (pyOr (pyGet loc "name")
         (resolveCity Py.none payload stem))).isHashable)
   else
     (walkMeasurements payload).all mOK &&
     ((walkMeasurements payload).isEmpty
       || (resolveCity Py.none payload stem).isHashable))

/-- First binding of a key in a row, `Option`-valued. -/
def rowLookup (row : List (String × Py)) (k : String) : Option Py :=
  (row.find? (fun p => p.1 == k)).map (fun p => p.2)

/-- Modelled from the spec: the contribution of one pollutant entry to
`severity_score` — "treating every absent pollutant as 0 for this sum
only" (a missing key, None, NaN, or a value `float()` cannot convert
contributes 0; numbers contribute their value, numeric strings their
parsed value, booleans their float value). -/
def specContrib (x : Option Py) : ℚ :=
  match x with
  | Option.none => 0
  | some Py.none => 0
  | some (Py.num (.val q)) => q
  | some (Py.num .nan) => 0
  | some (Py.bool b) => if b then 1 else 0
  | some (Py.str s) => (parseFloatQ s).getD 0
  | some (Py.list _) => 0
  | some (Py.dict _) => 0
  | some (Py.timestamp _) => 0

/-- Modelled from the spec: `severity_score(row) = 5·pm2_5 + 3·pm10 +
4·nitrogen_dioxide + 4·sulphur_dioxide + 2·carbon_monoxide + 3·ozone`
with absent pollutants as 0 (spec section 4.7). -/
def severity_score_spec (row : List (String × Py)) : ℚ :=
  5 * specContrib (rowLookup row "pm2_5") +
  3 * specContrib (rowLookup row "pm10") +
  4 * specContrib (rowLookup row "nitrogen_dioxide") +
  4 * specContrib (rowLookup row "sulphur_dioxide") +
  2 * specContrib (rowLookup row "carbon_monoxide") +
  3 * specContrib (rowLookup row "ozone")

/-- A cell that cannot push the severity sum below zero: NaN is excluded
(it makes the sum NaN), and any numeric interpretation must be ≥ 0. -/
def cellNonNeg : Py → Bool
  | .num (.val q) => decide (0 ≤ q)
  | .num .nan => false
  | .str s => match parseFloatQ s with | some q => decide (0 ≤ q) | Option.none => true
  | _ => true

/-- A cell that is not a float NaN. -/
def nanFreeCell : Py → Bool
  | .num .nan => false
  | _ => true

/-- The TIME_SERIES scenario payload of spec section 8 (claim C3):
`hourly.time` has two timestamps and `hourly.pm25 = [10, 600]`. -/
def scenarioPayload : Py :=
  .dict [("hourly", .dict
    [("time", .list [.str "2024-01-01T00:00:00Z", .str "2024-01-01T01:00:00Z"]),
     ("pm25", .list [.num (.val 10), .num (.val 600)])])]

/-- A TIME_SERIES payload whose single timestamp is mid-hour (00:30)
and whose pollutant array uses the canonical key `pm2_5`, so the row
survives the merger. -/
def tsHalfHourPayload : Py :=
  .dict [("hourly", .dict
    [("time", .list [.str "2024-01-01T00:30:00Z"]),
     ("pm2_5", .list [.num (.val 5)])])]

/-!
Helper lemmas shared by several claim theorems.
-/

theorem PFloat.val_mul (a b : ℚ) : PFloat.val a * PFloat.val b = PFloat.val (a * b) := rfl

theorem PFloat.val_add (a b : ℚ) : PFloat.val a + PFloat.val b = PFloat.val (a + b) := rfl

theorem PFloat.nan_mul (b : PFloat) : PFloat.nan * b = PFloat.nan := by
  cases b <;> rfl

theorem PFloat.nan_add (b : PFloat) : PFloat.nan + b = PFloat.nan := by
  cases b <;> rfl

theorem PFloat.val_injEq (a b : ℚ) : (PFloat.val a = PFloat.val b) ↔ a = b := by
  constructor
  · intro h; injection h
  · intro h; rw [h]

theorem aqi_on_val (q : ℚ) :
    calculate_aqi (Py.num (.val q)) =
      some (if q ≤ 50 then "Good"
            else if q ≤ 100 then "Moderate"
            else if q ≤ 200 then "Unhealthy"
            else if q ≤ 300 then "Very Unhealthy"
            else "Hazardous") := by
  simp [calculate_aqi, pyFloat, PFloat.leB]

/-- C6: `calculate_aqi` is absent on absent input; on numbers it returns
Good for x ≤ 50, Moderate for 50 < x ≤ 100, Unhealthy for 100 < x ≤ 200,
Very Unhealthy for 200 < x ≤ 300, and Hazardous otherwise; in particular
50.0 → Good, 50.1 → Moderate, 200.0 → Unhealthy, 300.1 → Hazardous. -/
theorem calculate_aqi_bands :
    calculate_aqi Py.none = Option.none
    ∧ (∀ q : ℚ, q ≤ 50 → calculate_aqi (Py.num (.val q)) = some "Good")
    ∧ (∀ q : ℚ, 50 < q → q ≤ 100 → calculate_aqi (Py.num (.val q)) = some "Moderate")
    ∧ (∀ q : ℚ, 100 < q → q ≤ 200 → calculate_aqi (Py.num (.val q)) = some "Unhealthy")
    ∧ (∀ q : ℚ, 200 < q → q ≤ 300 → calculate_aqi (Py.num (.val q)) = some "Very Unhealthy")
    ∧ (∀ q : ℚ, 300 < q → calculate_aqi (Py.num (.val q)) = some "Hazardous")
    ∧ calculate_aqi (Py.num (.val 50)) = some "Good"
    ∧ calculate_aqi (Py.num (.val (501 / 10))) = some "Moderate"
    ∧ calculate_aqi (Py.num (.val 200)) = some "Unhealthy"
    ∧ calculate_aqi (Py.num (.val (3001 / 10))) = some "Hazardous" := by
  refine ⟨rfl, ?_, ?_, ?_, ?_, ?_, ?_, ?_, ?_, ?_⟩
  · intro q h1; rw [aqi_on_val]; simp [h1]
  · intro q h1 h2; rw [aqi_on_val]
    rw [if_neg (by linarith), if_pos h2]
  · intro q h1 h2; rw [aqi_on_val]
    rw [if_neg (by linarith), if_neg (by linarith), if_pos h2]
  · intro q h1 h2; rw [aqi_on_val]
    rw [if_neg (by linarith), if_neg (by linarith), if_neg (by linarith), if_pos h2]
  · intro q h1; rw [aqi_on_val]
    rw [if_neg (by linarith), if_neg (by linarith), if_neg (by linarith),
      if_neg (by linarith)]
  · rw [aqi_on_val]; norm_num
  · rw [aqi_on_val]; norm_num
  · rw [aqi_on_val]; norm_num
  · rw [aqi_on_val]; norm_num

theorem calculate_aqi_bands_witness :
    calculate_aqi (Py.num (.val 60)) = some "Moderate" :=
  calculate_aqi_bands.2.2.1 60 (by norm_num) (by norm_num)

/-- C10: on every float input `calculate_risk` returns one of exactly
High Risk / Moderate Risk / Low Risk, never absent; NaN severity lands
in Low Risk because both strict comparisons are false for NaN. -/
theorem calculate_risk_total :
    (∀ x : PFloat,
       calculate_risk (Py.num x) = some "High Risk"
       ∨ calculate_risk (Py.num x) = some "Moderate Risk"
       ∨ calculate_risk (Py.num x) = some "Low Risk")
    ∧ calculate_risk (Py.num PFloat.nan) = some "Low Risk"
    ∧ (∀ x : PFloat, calculate_risk (Py.num x) ≠ Option.none) := by
  have h : ∀ x : PFloat,
      calculate_risk (Py.num x) = some "High Risk"
      ∨ calculate_risk (Py.num x) = some "Moderate Risk"
      ∨ calculate_risk (Py.num x) = some "Low Risk" := by
    intro x
    simp only [calculate_risk, pyFloat]
    by_cases h1 : x.gtB 400 = true
    · left; simp [h1]
    · by_cases h2 : x.gtB 200 = true
      · right; left; simp [h1, h2]
      · right; right
        simp [Bool.not_eq_true] at h1 h2
        simp [h1, h2]
  refine ⟨h, rfl, ?_⟩
  intro x
  rcases h x with h1 | h1 | h1 <;> simp [h1]

theorem rowGet_eq_lookup (row : List (String × Py)) (k : String) (d : Py) :
    rowGet row k d = (rowLookup row k).getD d := rfl

theorem rowLookup_mem {row : List (String × Py)} {k : String} {v : Py}
    (h : rowLookup row k = some v) : ∃ p ∈ row, p.2 = v := by
  unfold rowLookup at h
  rw [Option.map_eq_some'] at h
  obtain ⟨p, hp, hv⟩ := h
  exact ⟨p, List.mem_of_find?_eq_some hp, hv⟩

theorem sevCoerce_eq_specContrib {x : Py} (hx : nanFreeCell x = true) :
    sevCoerce x = PFloat.val (specContrib (some x)) := by
  cases x with
  | none => rfl
  | bool b => cases b <;> rfl
  | num f =>
    cases f with
    | nan => simp [nanFreeCell] at hx
    | val q => rfl
  | str s =>
    simp only [sevCoerce, pyFloat, specContrib]
    cases h : parseFloatQ s <;> simp [h]
  | list xs => rfl
  | dict fs => rfl
  | timestamp t => rfl

theorem sevColumn_eq_spec {row : List (String × Py)}
    (hrow : ∀ p ∈ row, nanFreeCell p.2 = true) (k : String) :
    sevCoerce (rowGet row k (Py.num (.val 0)))
      = PFloat.val (specContrib (rowLookup row k)) := by
  rw [rowGet_eq_lookup]
  cases h : rowLookup row k with
  | none => rfl
  | some v =>
    obtain ⟨p, hp, hv⟩ := rowLookup_mem h
    exact sevCoerce_eq_specContrib (hv ▸ hrow p hp)

/-- C2 counterexample: a pipeline row whose pm2_5 is the float NaN that
pandas uses for an absent pollutant after numeric coercion.  The code
propagates the NaN (severity is NaN, i.e. absent), while the claimed
formula with absent-as-0 gives 30. -/
theorem severity_nan_cex :
    (calculate_severity [("pm2_5", Py.num .nan), ("pm10", Py.num (.val 10))]).isNan = true
    ∧ severity_score_spec [("pm2_5", Py.num .nan), ("pm10", Py.num (.val 10))] = 30
    ∧ PFloat.isNan (PFloat.val 30) = false := by
  refine ⟨by decide, ?_, by decide⟩
  simp [severity_score_spec, specContrib, rowLookup, List.find?]
  norm_num

/-- C2 amended: on rows free of float NaN cells, `calculate_severity`
returns exactly the claimed weighted sum, with each absent
(missing/None/non-convertible) pollutant contributing 0, so the result is
a defined number.  (A NaN cell — the pipeline's representation of an
absent pollutant after coercion — instead propagates to a NaN severity.) -/
theorem severity_matches_spec_nanfree :
    ∀ row : List (String × Py),
      (∀ p ∈ row, nanFreeCell p.2 = true) →
      calculate_severity row = PFloat.val (severity_score_spec row) := by
  intro row hrow
  unfold calculate_severity severity_score_spec
  rw [sevColumn_eq_spec hrow "pm2_5", sevColumn_eq_spec hrow "pm10",
    sevColumn_eq_spec hrow "nitrogen_dioxide", sevColumn_eq_spec hrow "sulphur_dioxide",
    sevColumn_eq_spec hrow "carbon_monoxide", sevColumn_eq_spec hrow "ozone"]
  simp only [PFloat.val_mul, PFloat.val_add, PFloat.val_injEq]
  ring

theorem severity_matches_spec_nanfree_witness :
    calculate_severity [("pm2_5", Py.num (.val 10)), ("pm10", Py.none), ("ozone", Py.str "abc")]
      = PFloat.val (severity_score_spec
          [("pm2_5", Py.num (.val 10)), ("pm10", Py.none), ("ozone", Py.str "abc")]) :=
  severity_matches_spec_nanfree _ (by decide)

theorem sevCoerce_nonneg {x : Py} (hx : cellNonNeg x = true) :
    ∃ q : ℚ, sevCoerce x = PFloat.val q ∧ 0 ≤ q := by
  cases x with
  | none => exact ⟨0, rfl, le_refl 0⟩
  | bool b => cases b with
    | true => exact ⟨1, rfl, by norm_num⟩
    | false => exact ⟨0, rfl, le_refl 0⟩
  | num f =>
    cases f with
    | nan => simp [cellNonNeg] at hx
    | val q =>
      refine ⟨q, rfl, ?_⟩
      simpa [cellNonNeg] using hx
  | str s =>
    simp only [sevCoerce, pyFloat]
    cases h : parseFloatQ s with
    | none => exact ⟨0, by simp [h], le_refl 0⟩
    | some q =>
      refine ⟨q, by simp [h], ?_⟩
      simp only [cellNonNeg, h] at hx
      simpa using hx
  | list xs => exact ⟨0, rfl, le_refl 0⟩
  | dict fs => exact ⟨0, rfl, le_refl 0⟩
  | timestamp t => exact ⟨0, rfl, le_refl 0⟩

/-- C9 counterexample: a row with the single pollutant pm2_5 = -1 gives
severity -5, which is not ≥ 0. -/
theorem severity_negative_cex :
    calculate_severity [("pm2_5", Py.num (.val (-1)))] = PFloat.val (-5)
    ∧ (-5 : ℚ) < 0 := by
  constructor
  · simp [calculate_severity, rowGet, sevCoerce, pyFloat, List.find?, PFloat.val_mul,
      PFloat.val_add, PFloat.val_injEq]
  · norm_num

/-- C9 amended: severity is a defined number ≥ 0 for every row whose
cells are absent or non-negative (and not NaN); a negative pollutant
value produces a negative severity, and a NaN cell a NaN severity. -/
theorem severity_nonneg_of_nonneg_cells :
    ∀ row : List (String × Py),
      (∀ p ∈ row, cellNonNeg p.2 = true) →
      ∃ q : ℚ, calculate_severity row = PFloat.val q ∧ 0 ≤ q := by
  intro row hrow
  have key : ∀ k : String, ∃ q : ℚ,
      sevCoerce (rowGet row k (Py.num (.val 0))) = PFloat.val q ∧ 0 ≤ q := by
    intro k
    rw [rowGet_eq_lookup]
    cases h : rowLookup row k with
    | none => exact ⟨0, rfl, le_refl 0⟩
    | some v =>
      obtain ⟨p, hp, hv⟩ := rowLookup_mem h
      exact sevCoerce_nonneg (hv ▸ hrow p hp)
  obtain ⟨q1, hq1, hn1⟩ := key "pm2_5"
  obtain ⟨q2, hq2, hn2⟩ := key "pm10"
  obtain ⟨q3, hq3, hn3⟩ := key "nitrogen_dioxide"
  obtain ⟨q4, hq4, hn4⟩ := key "sulphur_dioxide"
  obtain ⟨q5, hq5, hn5⟩ := key "carbon_monoxide"
  obtain ⟨q6, hq6, hn6⟩ := key "ozone"
  refine ⟨q1 * 5 + q2 * 3 + q3 * 4 + q4 * 4 + q5 * 2 + q6 * 3, ?_, by positivity⟩
  unfold calculate_severity
  rw [hq1, hq2, hq3, hq4, hq5, hq6]
  simp only [PFloat.val_mul, PFloat.val_add]

theorem severity_nonneg_of_nonneg_cells_witness :
    ∃ q : ℚ,
      calculate_severity [("pm2_5", Py.num (.val 3)), ("ozone", Py.str "abc")]
        = PFloat.val q ∧ 0 ≤ q :=
  severity_nonneg_of_nonneg_cells _ (by decide)

/-- C3: running the code on the spec's TIME_SERIES scenario.  The flatten
step emits two records whose pm2_5 cell is None — the value found under
the "pm25" alias is overwritten with None when the later "pm2_5" alias
misses — so the full pipeline drops both rows and outputs an empty table,
not two rows with pm2_5 = 600, severity 3000, High Risk, Hazardous. -/
theorem scenario_pm25_lost :
    (flatten_city_json (some scenarioPayload) "berlin_raw_20240101").map
      (fun fr => fr.rows.map (fun r => rowGet r "pm2_5" (Py.str "missing")))
      = Except.ok [Py.none, Py.none]
    ∧ transform_files [(some scenarioPayload, "berlin_raw_20240101")]
      = Except.ok ⟨fullHeader, []⟩ := by
  constructor
  · decide
  · decide

/-- C8 counterexample: on an empty input set the run does not crash and
writes an empty table, but the tenth header column is "aqi_category",
not the claimed "AQI". -/
theorem empty_run_header_cex :
    transform_files [] = Except.ok ⟨emptyHeader, []⟩
    ∧ emptyHeader.get? 9 = some "aqi_category"
    ∧ (emptyHeader ==
      ["city", "time", "pm10", "pm2_5", "carbon_monoxide", "nitrogen_dioxide",
       "sulphur_dioxide", "ozone", "uv_index", "AQI", "severity", "risk", "hour"]) = false := by
  refine ⟨by decide, by decide, by decide⟩

/-- C8 amended: an input set yielding no data produces, without crashing,
an empty output table whose header is exactly city, time, pm10, pm2_5,
carbon_monoxide, nitrogen_dioxide, sulphur_dioxide, ozone, uv_index,
aqi_category, severity, risk, hour. -/
theorem empty_run_header :
    transform_files [] =
      Except.ok ⟨["city", "time", "pm10", "pm2_5", "carbon_monoxide", "nitrogen_dioxide",
        "sulphur_dioxide", "ozone", "uv_index", "aqi_category", "severity", "risk", "hour"],
        []⟩ := by
  decide

/-- C4 counterexample: a TIME_SERIES payload with the mid-hour timestamp
00:30 produces a final pipeline row whose time is 00:30, not floored to
the top of the hour. -/
theorem ts_time_not_floored_cex :
    (transform_files [(some tsHalfHourPayload, "paris_raw_1")]).map
      (fun fr => fr.rows.map (fun r => rowGet r "time" Py.none))
      = Except.ok [Py.timestamp ⟨2024, 1, 1, 0, 30, 0⟩]
    ∧ (⟨2024, 1, 1, 0, 30, 0⟩ : TS).minute = 30
    ∧ (TS.floorHour ⟨2024, 1, 1, 0, 30, 0⟩).minute = 0 := by
  refine ⟨by decide, by decide, by decide⟩

theorem rowGet_city_head (c : Py) (t : TS) (rest : List (String × Py)) :
    rowGet (("city", c) :: ("time", Py.timestamp t) :: rest) "city" Py.none = c := by
  simp [rowGet, List.find?]

theorem rowGet_time_head (c : Py) (t : TS) (rest : List (String × Py)) :
    rowGet (("city", c) :: ("time", Py.timestamp t) :: rest) "time" Py.none
      = Py.timestamp t := by
  simp [rowGet, List.find?]

/-- C4 amended: every row the Hourly Aggregator (measurement path)
produces carries an hour-floored time; the TIME_SERIES direct-emission
path (see the counterexample) emits the parsed timestamp unchanged. -/
theorem aggregate_time_floored :
    ∀ (ms : List MTuple) (r : List (String × Py)), r ∈ hourlyAggregate ms →
      ∃ t : TS, rowGet r "time" Py.none = Py.timestamp t
        ∧ t.minute = 0 ∧ t.second = 0 := by
  intro ms r hr
  unfold hourlyAggregate at hr
  obtain ⟨ch, hch, hfr⟩ := List.mem_map.mp hr
  have hch2 := List.mem_dedup.mp hch
  obtain ⟨prow, hprow, hkey⟩ := List.mem_map.mp hch2
  obtain ⟨m, _, hpt⟩ := List.mem_filterMap.mp hprow
  rw [Option.map_eq_some'] at hpt
  obtain ⟨t0, _, hteq⟩ := hpt
  refine ⟨ch.2, ?_, ?_, ?_⟩
  · rw [← hfr]; exact rowGet_time_head ch.1 ch.2 _
  · have h1 : ch.2 = prow.hourT := by rw [← hkey]
    have h2 : prow.hourT = t0.floorHour := by rw [← hteq]
    rw [h1, h2]; rfl
  · have h1 : ch.2 = prow.hourT := by rw [← hkey]
    have h2 : prow.hourT = t0.floorHour := by rw [← hteq]
    rw [h1, h2]; rfl

theorem aggregate_time_floored_witness :
    ∃ t : TS,
      rowGet [("city", Py.str "a"), ("time", Py.timestamp ⟨2024, 1, 1, 5, 0, 0⟩),
        ("pm10", Py.none), ("pm2_5", Py.num .nan), ("carbon_monoxide", Py.none),
        ("nitrogen_dioxide", Py.none), ("sulphur_dioxide", Py.none),
        ("ozone", Py.none), ("uv_index", Py.none)] "time" Py.none
        = Py.timestamp t ∧ t.minute = 0 ∧ t.second = 0 :=
  aggregate_time_floored
    [⟨.str "a", .str "2024-01-01T05:10:00Z", .str "pm25", .str "bad"⟩] _ (by decide)

/-- C5: after the Hourly Aggregator, no two output rows share the same
(city, hour) pair. -/
theorem aggregate_unique_city_hour :
    ∀ ms : List MTuple,
      ((hourlyAggregate ms).map
        (fun r => (rowGet r "city" Py.none, rowGet r "time" Py.none))).Nodup := by
  intro ms
  unfold hourlyAggregate
  rw [List.map_map]
  rw [List.map_congr_left (g := fun ch : Py × TS => (ch.1, Py.timestamp ch.2))
    (fun ch _ => by simp [Function.comp, rowGet_city_head, rowGet_time_head])]
  refine List.Nodup.map ?_ (List.nodup_dedup _)
  intro a b hab
  simp only [Prod.mk.injEq] at hab
  obtain ⟨h1, h2⟩ := hab
  have h3 : a.2 = b.2 := by injection h2
  exact Prod.ext h1 h3

theorem pyOr_pos {a : Py} (h : pyTruthy a = true) (b : Py) : pyOr a b = a := by
  simp [pyOr, h]

theorem pyOr_neg {a : Py} (h : pyTruthy a = false) (b : Py) : pyOr a b = b := by
  simp [pyOr, h]

theorem find_getD_nil (u : Py) : ((List.find? pyTruthy []).getD u) = u := rfl

theorem find_getD_cons (a : Py) (l : List Py) (u : Py) :
    ((List.find? pyTruthy (a :: l)).getD u)
      = pyOr a ((List.find? pyTruthy l).getD u) := by
  by_cases h : pyTruthy a = true
  · simp [List.find?_cons, h, pyOr]
  · rw [Bool.not_eq_true] at h
    simp [List.find?_cons, h, pyOr]

theorem pyGet_nonDict {p : Py} (h : p.isDict = false) (k : String) : pyGet p k = .none := by
  cases p <;> simp_all [Py.isDict, pyGet, pyGetOpt, pyLookup, Py.fields]

theorem meta_stage (p : Py) (w z : Py) :
    pyOr (if pyTruthy (pyGet p "meta") && (pyGet p "meta").isDict
            && pyTruthy (pyGet (pyGet p "meta") "city")
          then pyGet (pyGet p "meta") "city" else w) z
      = pyOr (specCityMeta p) (pyOr w z) := by
  by_cases hc : (pyTruthy (pyGet p "meta") && (pyGet p "meta").isDict
      && pyTruthy (pyGet (pyGet p "meta") "city")) = true
  · simp only [Bool.and_eq_true] at hc
    obtain ⟨⟨hm, hd⟩, hmc⟩ := hc
    rw [if_pos (by simp [hm, hd, hmc])]
    unfold specCityMeta
    rw [if_pos hd, pyOr_pos hmc, pyOr_pos hmc]
  · rw [if_neg hc]
    have hskip : pyTruthy (specCityMeta p) = false := by
      unfold specCityMeta
      by_cases hd : (pyGet p "meta").isDict = true
      · rw [if_pos hd]
        cases hm : pyGet p "meta" with
        | dict gs =>
          cases gs with
          | nil => simp [pyGet, pyGetOpt, pyLookup, Py.fields, pyTruthy]
          | cons g gs2 =>
            have hmt : pyTruthy (pyGet p "meta") = true := by
              rw [hm]; simp [pyTruthy]
            rw [← hm]
            by_contra hmc
            rw [Bool.not_eq_false] at hmc
            exact hc (by simp [hmt, hd, hmc])
        | none => rfl
        | bool b => rfl
        | num x => rfl
        | str s => rfl
        | list xs => rfl
        | timestamp t => rfl
      · rw [if_neg hd]; rfl
    rw [pyOr_neg hskip]

theorem pyTruthy_none : pyTruthy Py.none = false := rfl

theorem v2_stage (p : Py) (w z : Py) :
    pyOr (match inferV2 p with | some v => v | Option.none => w) z
      = pyOr (specCityV2 p) (pyOr w z) := by
  unfold inferV2 specCityV2
  cases hr : pyGet p "results" with
  | list xs =>
    cases xs with
    | nil => simp [pyOr, pyTruthy]
    | cons first rest =>
      by_cases hd : first.isDict = true
      · by_cases hc : pyTruthy (pyGet first "city") = true
        · simp [hd, hc, pyOr, pyTruthy_none]
        · rw [Bool.not_eq_true] at hc
          by_cases hl : pyTruthy (pyGet first "location") = true
          · simp [hd, hc, hl, pyOr, pyTruthy_none]
          · rw [Bool.not_eq_true] at hl
            simp [hd, hc, hl, pyOr, pyTruthy_none]
      · rw [Bool.not_eq_true] at hd
        simp [hd, pyOr, pyTruthy]
  | none => simp [pyOr, pyTruthy]
  | bool b => simp [pyOr, pyTruthy]
  | num x => simp [pyOr, pyTruthy]
  | str s => simp [pyOr, pyTruthy]
  | dict fs => simp [pyOr, pyTruthy]
  | timestamp t => simp [pyOr, pyTruthy]

theorem v3_stage (p : Py) (z : Py) :
    pyOr (inferV3 p) z = pyOr (specCityV3 p) z := by
  unfold inferV3 specCityV3
  cases hr : pyGet p "locations" with
  | list xs =>
    cases xs with
    | nil => rfl
    | cons first rest =>
      by_cases hd : first.isDict = true
      · by_cases hc : pyTruthy (pyGet first "city") = true
        · simp [hd, hc, pyOr, pyTruthy_none]
        · rw [Bool.not_eq_true] at hc
          by_cases hn : pyTruthy (pyGet first "name") = true
          · simp [hd, hc, hn, pyOr, pyTruthy_none]
          · rw [Bool.not_eq_true] at hn
            simp [hd, hc, hn, pyOr, pyTruthy_none]
      · rw [Bool.not_eq_true] at hd
        simp [hd, pyOr, pyTruthy]
  | none => rfl
  | bool b => rfl
  | num x => rfl
  | str s => rfl
  | dict fs => rfl
  | timestamp t => rfl

theorem infer_pyOr (p z : Py) :
    pyOr (infer_city_from_payload p) z
      = pyOr (specCityTop p) (pyOr (specCityMeta p)
          (pyOr (specCityV2 p) (pyOr (specCityV3 p) z))) := by
  by_cases hd : p.isDict = true
  · unfold infer_city_from_payload
    rw [if_neg (by simp [hd])]
    by_cases hc : pyTruthy (pyGet p "city") = true
    · rw [if_pos hc, pyOr_pos hc]
      unfold specCityTop
      rw [pyOr_pos hc]
    · rw [Bool.not_eq_true] at hc
      rw [if_neg (by simp [hc])]
      unfold specCityTop
      rw [pyOr_neg hc]
      rw [meta_stage, v2_stage, v3_stage]
  · rw [Bool.not_eq_true] at hd
    have h1 : infer_city_from_payload p = .none := by
      unfold infer_city_from_payload
      rw [if_pos (by simp [hd])]
    have htop : specCityTop p = .none := pyGet_nonDict hd "city"
    have hmeta : specCityMeta p = .none := by
      unfold specCityMeta
      rw [pyGet_nonDict hd "meta"]
      rfl
    have hv2 : specCityV2 p = .none := by
      unfold specCityV2
      rw [pyGet_nonDict hd "results"]
    have hv3 : specCityV3 p = .none := by
      unfold specCityV3
      rw [pyGet_nonDict hd "locations"]
    rw [h1, htop, hmeta, hv2, hv3]
    simp [pyOr_neg pyTruthy_none]

/-- C7 counterexample: a payload whose top-level "city" field holds the
number 5.  Resolution returns that number verbatim, so the result is not
a string. -/
theorem resolve_city_nonstring_cex :
    resolveCity .none (Py.dict [("city", Py.num (.val 5))]) "x" = Py.num (.val 5)
    ∧ (Py.num (.val 5)).isStr = false := by
  constructor
  · decide
  · decide

/-- C7 amended: city resolution equals the spec's ordered-extractor
chain — override, top-level city, meta.city, v2 first element
city/location, v3 first element city/name, filename derivation, literal
"Unknown" — first truthy candidate wins, and the chain always produces a
value (the matched candidate verbatim, a string whenever the matched
payload field is a string; filename and Unknown fallbacks are always
strings). -/
theorem resolve_city_matches_spec :
    ∀ (city_name payload : Py) (stem : String),
      resolveCity city_name payload stem = resolveCitySpec city_name payload stem := by
  intro cn p stem
  show pyOr cn (pyOr (infer_city_from_payload p)
      (pyOr (infer_city_from_filename stem) (.str "Unknown")))
    = ((List.find? pyTruthy [cn, specCityTop p, specCityMeta p, specCityV2 p,
        specCityV3 p, infer_city_from_filename stem]).getD (.str "Unknown"))
  rw [find_getD_cons, find_getD_cons, find_getD_cons, find_getD_cons, find_getD_cons,
    find_getD_cons, find_getD_nil]
  by_cases hcn : pyTruthy cn = true
  · rw [pyOr_pos hcn, pyOr_pos hcn]
  · rw [Bool.not_eq_true] at hcn
    rw [pyOr_neg hcn, pyOr_neg hcn]
    exact infer_pyOr p _

theorem except_bind_ok {α β : Type} {e : Except String α} {f : α → Except String β}
    (he : ∃ a, e = .ok a) (hf : ∀ a, ∃ b, f a = .ok b) :
    ∃ b, (e >>= f) = .ok b := by
  obtain ⟨a, ha⟩ := he
  obtain ⟨b, hb⟩ := hf a
  exact ⟨b, by rw [ha]; exact hb⟩

theorem exceptMapM_ok {α β : Type} (f : α → Except String β) (l : List α)
    (h : ∀ a ∈ l, ∃ b, f a = .ok b) : ∃ bs, l.mapM f = .ok bs := by
  induction l with
  | nil => exact ⟨[], rfl⟩
  | cons a t ih =>
    obtain ⟨b, hb⟩ := h a (List.mem_cons_self a t)
    obtain ⟨bs, hbs⟩ := ih (fun x hx => h x (List.mem_cons_of_mem a hx))
    refine ⟨b :: bs, ?_⟩
    rw [List.mapM_cons, hb, hbs]
    rfl

theorem dateField_ok {m : Py} (h : dateOK m = true) : ∃ t, dateField m = .ok t := by
  simp only [dateField]
  by_cases h1 : pyTruthy (pyGet m "lastUpdated") = true
  · rw [if_pos h1]; exact ⟨_, rfl⟩
  · rw [Bool.not_eq_true] at h1
    rw [if_neg (by simp [h1])]
    by_cases h2 : pyTruthy (pyGet m "date") = true
    · rw [if_pos h2]
      simp only [dateOK, h1, h2] at h
      simp at h
      cases hd : pyGet m "date" with
      | dict fs => exact ⟨_, rfl⟩
      | none => rw [hd] at h; simp [Py.isDict] at h
      | bool b => rw [hd] at h; simp [Py.isDict] at h
      | num x => rw [hd] at h; simp [Py.isDict] at h
      | str s => rw [hd] at h; simp [Py.isDict] at h
      | list xs => rw [hd] at h; simp [Py.isDict] at h
      | timestamp t => rw [hd] at h; simp [Py.isDict] at h
    · rw [Bool.not_eq_true] at h2
      rw [if_neg (by simp [h2])]
      exact ⟨_, rfl⟩

theorem except_bind_ok_of {α β : Type} {e : Except String α} {a : α}
    {f : α → Except String β} (he : e = .ok a) {b : β} (hf : f a = .ok b) :
    (e >>= f) = .ok b := by
  rw [he]; exact hf

theorem exceptOkBind {α β : Type} (a : α) (f : α → Except String β) :
    (Except.ok a >>= f) = f a := rfl

theorem snd_mem_of_mem_enum {α : Type} {l : List α} {it : Nat × α}
    (h : it ∈ l.enum) : it.2 ∈ l := by
  rw [List.enum_eq_zip_range] at h
  exact (List.of_mem_zip h).2

theorem v2MeasValue_of_none {loc : Py} (h : pyGetOpt loc "measurements" = Option.none) :
    v2MeasValue loc = Py.list [] := by
  rw [v2MeasValue, h]

theorem v2MeasValue_of_some {loc v : Py} (h : pyGetOpt loc "measurements" = some v) :
    v2MeasValue loc = v := by
  rw [v2MeasValue, h]

theorem v3MeasValue_of_none {loc : Py} (h : pyGetOpt loc "measurements" = Option.none) :
    v3MeasValue loc = Py.list [] := by
  rw [v3MeasValue, h]

theorem v3MeasValue_of_some {loc v : Py} (h : pyGetOpt loc "measurements" = some v) :
    v3MeasValue loc = if pyTruthy v then v else Py.list [] := by
  rw [v3MeasValue, h]

theorem exceptMapM_ok_post {α β : Type} (f : α → Except String β) (l : List α)
    (P : β → Prop) (h : ∀ a ∈ l, ∃ b, f a = .ok b ∧ P b) :
    ∃ bs, l.mapM f = .ok bs ∧ ∀ b ∈ bs, P b := by
  induction l with
  | nil => exact ⟨[], rfl, fun b hb => absurd hb (List.not_mem_nil b)⟩
  | cons a t ih =>
    obtain ⟨b, hb, hPb⟩ := h a (List.mem_cons_self a t)
    obtain ⟨bs, hbs, hPbs⟩ := ih (fun x hx => h x (List.mem_cons_of_mem a hx))
    refine ⟨b :: bs, ?_, ?_⟩
    · rw [List.mapM_cons, hb, hbs]; rfl
    · intro x hx
      rcases List.mem_cons.mp hx with h1 | h1
      · rw [h1]; exact hPb
      · exact hPbs x h1

theorem tupleV2_ok (c : Py) {m : Py} (hc : c.isHashable = true) (h : mOK m = true) :
    ∃ t, tupleV2 c m = .ok t ∧ t.city.isHashable = true ∧ t.value.isHashable = true := by
  rw [mOK, Bool.and_eq_true] at h
  obtain ⟨h12, h3⟩ := h
  rw [Bool.and_eq_true] at h12
  obtain ⟨h1, h2⟩ := h12
  obtain ⟨d, hd⟩ := dateField_ok h2
  simp only [tupleV2]
  rw [if_neg (by simp [h1])]
  exact ⟨⟨c, d, pyOr (pyGet m "parameter") (pyOr (pyGet m "param") (pyGet m "name")),
    pyGet m "value"⟩, except_bind_ok_of hd rfl, hc, h3⟩

theorem tupleV3M_ok (c : Py) {m : Py} (hc : c.isHashable = true) (h : mOK m = true) :
    ∃ t, tupleV3M c m = .ok t ∧ t.city.isHashable = true ∧ t.value.isHashable = true := by
  rw [mOK, Bool.and_eq_true] at h
  obtain ⟨h12, h3⟩ := h
  rw [Bool.and_eq_true] at h12
  obtain ⟨h1, h2⟩ := h12
  obtain ⟨d, hd⟩ := dateField_ok h2
  simp only [tupleV3M]
  rw [if_neg (by simp [h1])]
  exact ⟨⟨c, d, pyOr (pyGet m "parameter") (pyGet m "name"), pyGet m "value"⟩,
    except_bind_ok_of hd rfl, hc, h3⟩

theorem tupleWalk_ok (c : Py) {m : Py} (hc : c.isHashable = true) (h : mOK m = true) :
    ∃ t, tupleWalk c m = .ok t ∧ t.city.isHashable = true ∧ t.value.isHashable = true := by
  rw [mOK, Bool.and_eq_true] at h
  obtain ⟨h12, h3⟩ := h
  rw [Bool.and_eq_true] at h12
  obtain ⟨h1, h2⟩ := h12
  obtain ⟨d, hd⟩ := dateField_ok h2
  simp only [tupleWalk]
  rw [if_neg (by simp [h1])]
  exact ⟨⟨c, d, pyOr (pyGet m "parameter") (pyOr (pyGet m "name") (pyGet m "param")),
    pyGet m "value"⟩, except_bind_ok_of hd rfl, hc, h3⟩

theorem tupleV3P_ok (loc c : Py) {p : Py} (hc : c.isHashable = true)
    (h : pOK loc p = true) :
    ∃ t, tupleV3P loc c p = .ok t ∧ t.city.isHashable = true ∧ t.value.isHashable = true := by
  rw [pOK, Bool.and_eq_true] at h
  obtain ⟨h12, _⟩ := h
  rw [Bool.and_eq_true] at h12
  obtain ⟨h1, h2⟩ := h12
  simp only [tupleV3P]
  rw [if_neg (by simp [h1])]
  exact ⟨⟨c,
    pyOr (pyGet p "lastUpdated") (pyOr (pyGet p "lastUpdatedAt") (pyGet loc "lastUpdated")),
    pyOr (pyGet p "parameter") (pyGet p "name"),
    if pyHasKey p "lastValue" then pyGet p "lastValue" else pyGet p "value"⟩,
    rfl, hc, h2⟩

theorem hourlyAggregateE_ok {ms : List MTuple}
    (h : ∀ t ∈ ms, t.city.isHashable = true ∧ t.value.isHashable = true) :
    hourlyAggregateE ms = .ok (hourlyAggregate ms) := by
  have h1 : (ms.filter (fun m => (parseTimeCoerce m.time).isSome)).all
      (fun m => m.value.isHashable) = true := by
    rw [List.all_eq_true]
    intro m hm
    exact (h m (List.mem_of_mem_filter hm)).2
  have h2 : (ms.filter (fun m => (parseTimeCoerce m.time).isSome)).all
      (fun m => m.city.isHashable) = true := by
    rw [List.all_eq_true]
    intro m hm
    exact (h m (List.mem_of_mem_filter hm)).1
  rw [hourlyAggregateE, if_pos h1, if_pos h2]

theorem collectV2_ok (city : Py) (locs : List Py)
    (h : ∀ loc ∈ locs, (loc.isDict && measOptOkV2 (pyGetOpt loc "measurements") &&
      (pyOr (pyGet loc "city") (pyOr (pyGet loc "location") city)).isHashable) = true) :
    ∃ ts, collectV2 city locs = .ok ts
      ∧ ∀ t ∈ ts, t.city.isHashable = true ∧ t.value.isHashable = true := by
  simp only [collectV2]
  have hmain : ∃ ls, (locs.mapM (fun loc =>
      if !loc.isDict then throw "AttributeError: results entry has no .get"
      else
        (iterElems (v2MeasValue loc)) >>= fun elems =>
          elems.mapM (tupleV2 (pyOr (pyGet loc "city") (pyOr (pyGet loc "location") city))))) =
      Except.ok ls
      ∧ ∀ l2 ∈ ls, ∀ t ∈ l2, t.city.isHashable = true ∧ t.value.isHashable = true := by
    refine exceptMapM_ok_post _ _ _ ?_
    intro loc hloc
    have hl := h loc hloc
    rw [Bool.and_eq_true] at hl
    obtain ⟨hl1, hcity⟩ := hl
    rw [Bool.and_eq_true] at hl1
    obtain ⟨hd, hm⟩ := hl1
    rw [if_neg (by simp [hd])]
    cases hopt : pyGetOpt loc "measurements" with
    | none =>
      rw [v2MeasValue_of_none hopt]
      exact ⟨[], rfl, fun t ht => absurd ht (List.not_mem_nil t)⟩
    | some v =>
      rw [hopt] at hm
      rw [v2MeasValue_of_some hopt]
      cases v with
      | list xs =>
        have hm2 : xs.all mOK = true := hm
        rw [List.all_eq_true] at hm2
        obtain ⟨ts, hts, hpost⟩ := exceptMapM_ok_post
          (tupleV2 (pyOr (pyGet loc "city") (pyOr (pyGet loc "location") city))) xs
          (fun t => t.city.isHashable = true ∧ t.value.isHashable = true)
          (fun x hx => tupleV2_ok _ hcity (hm2 x hx))
        exact ⟨ts, except_bind_ok_of rfl hts, hpost⟩
      | none => exact absurd (show false = true from hm) Bool.false_ne_true
      | bool b => exact absurd (show false = true from hm) Bool.false_ne_true
      | num x => exact absurd (show false = true from hm) Bool.false_ne_true
      | str s => exact absurd (show false = true from hm) Bool.false_ne_true
      | dict fs => exact absurd (show false = true from hm) Bool.false_ne_true
      | timestamp t => exact absurd (show false = true from hm) Bool.false_ne_true
  obtain ⟨ls, hls, hpost⟩ := hmain
  refine ⟨ls.flatten, ?_, ?_⟩
  · rw [hls, exceptOkBind]
    rfl
  · intro t ht
    rw [List.mem_flatten] at ht
    obtain ⟨l2, hl2, htl⟩ := ht
    exact hpost l2 hl2 t htl

theorem collectV3_ok (city : Py) (locs : List Py)
    (h : ∀ loc ∈ locs, (loc.isDict &&
      (!pyTruthy (pyGet loc "parameters") || paramsOk loc (pyGet loc "parameters")) &&
      (match pyGetOpt loc "measurements" with
       | Option.none => true
       | some v => !pyTruthy v || measListOk v) &&
      (pyOr (pyGet loc "city") (pyOr (pyGet loc "name") city)).isHashable) = true) :
    ∃ ts, collectV3 city locs = .ok ts
      ∧ ∀ t ∈ ts, t.city.isHashable = true ∧ t.value.isHashable = true := by
  simp only [collectV3]
  have hmain : ∃ ls, (locs.mapM (fun loc =>
      if !loc.isDict then throw "AttributeError: locations entry has no .get"
      else
        (iterElems (v3ParamsValue loc)) >>= fun pElems =>
          (pElems.mapM (tupleV3P loc
            (pyOr (pyGet loc "city") (pyOr (pyGet loc "name") city)))) >>= fun t1 =>
          (iterElems (v3MeasValue loc)) >>= fun mElems =>
          (mElems.mapM (tupleV3M
            (pyOr (pyGet loc "city") (pyOr (pyGet loc "name") city)))) >>= fun t2 =>
          pure (t1 ++ t2))) = Except.ok ls
      ∧ ∀ l2 ∈ ls, ∀ t ∈ l2, t.city.isHashable = true ∧ t.value.isHashable = true := by
    refine exceptMapM_ok_post _ _ _ ?_
    intro loc hloc
    have hl := h loc hloc
    rw [Bool.and_eq_true] at hl
    obtain ⟨hl1, hcity⟩ := hl
    rw [Bool.and_eq_true] at hl1
    obtain ⟨hl2, hmes⟩ := hl1
    rw [Bool.and_eq_true] at hl2
    obtain ⟨hd, hpar⟩ := hl2
    rw [if_neg (by simp [hd])]
    have hparams : ∃ t1, ((iterElems (v3ParamsValue loc)) >>= fun pElems =>
          pElems.mapM (tupleV3P loc
            (pyOr (pyGet loc "city") (pyOr (pyGet loc "name") city)))) = .ok t1
        ∧ ∀ t ∈ t1, t.city.isHashable = true ∧ t.value.isHashable = true := by
      by_cases hpt : pyTruthy (pyGet loc "parameters") = true
      · rw [v3ParamsValue, if_pos hpt]
        rw [hpt] at hpar
        simp only [Bool.not_true, Bool.false_or] at hpar
        cases hp : pyGet loc "parameters" with
        | list ps =>
          rw [hp] at hpar
          have hpar2 : ps.all (pOK loc) = true := hpar
          rw [List.all_eq_true] at hpar2
          obtain ⟨t1, ht1, hpost1⟩ := exceptMapM_ok_post
            (tupleV3P loc (pyOr (pyGet loc "city") (pyOr (pyGet loc "name") city))) ps
            (fun t => t.city.isHashable = true ∧ t.value.isHashable = true)
            (fun x hx => tupleV3P_ok _ _ hcity (hpar2 x hx))
          exact ⟨t1, except_bind_ok_of rfl ht1, hpost1⟩
        | none => rw [hp] at hpar; exact absurd (show false = true from hpar) Bool.false_ne_true
        | bool b => rw [hp] at hpar; exact absurd (show false = true from hpar) Bool.false_ne_true
        | num x => rw [hp] at hpar; exact absurd (show false = true from hpar) Bool.false_ne_true
        | str s2 => rw [hp] at hpar; exact absurd (show false = true from hpar) Bool.false_ne_true
        | dict fs => rw [hp] at hpar; exact absurd (show false = true from hpar) Bool.false_ne_true
        | timestamp t => rw [hp] at hpar; exact absurd (show false = true from hpar) Bool.false_ne_true
      · rw [Bool.not_eq_true] at hpt
        rw [v3ParamsValue, if_neg (by simp [hpt])]
        exact ⟨[], rfl, fun t ht => absurd ht (List.not_mem_nil t)⟩
    have hms : ∃ t2, ((iterElems (v3MeasValue loc)) >>= fun mElems =>
          mElems.mapM (tupleV3M
            (pyOr (pyGet loc "city") (pyOr (pyGet loc "name") city)))) = .ok t2
        ∧ ∀ t ∈ t2, t.city.isHashable = true ∧ t.value.isHashable = true := by
      cases hopt : pyGetOpt loc "measurements" with
      | none =>
        rw [v3MeasValue_of_none hopt]
        exact ⟨[], rfl, fun t ht => absurd ht (List.not_mem_nil t)⟩
      | some v =>
        rw [hopt] at hmes
        have hmesR : (!pyTruthy v || measListOk v) = true := hmes
        rw [v3MeasValue_of_some hopt]
        by_cases hvt : pyTruthy v = true
        · rw [hvt] at hmesR
          simp only [Bool.not_true, Bool.false_or] at hmesR
          rw [if_pos hvt]
          cases v with
          | list xs =>
            have hmes2 : xs.all mOK = true := hmesR
            rw [List.all_eq_true] at hmes2
            obtain ⟨t2, ht2, hpost2⟩ := exceptMapM_ok_post
              (tupleV3M (pyOr (pyGet loc "city") (pyOr (pyGet loc "name") city))) xs
              (fun t => t.city.isHashable = true ∧ t.value.isHashable = true)
              (fun x hx => tupleV3M_ok _ hcity (hmes2 x hx))
            exact ⟨t2, except_bind_ok_of rfl ht2, hpost2⟩
          | none => exact absurd (show false = true from hmesR) Bool.false_ne_true
          | bool b => exact absurd (show false = true from hmesR) Bool.false_ne_true
          | num x => exact absurd (show false = true from hmesR) Bool.false_ne_true
          | str s2 => exact absurd (show false = true from hmesR) Bool.false_ne_true
          | dict fs => exact absurd (show false = true from hmesR) Bool.false_ne_true
          | timestamp t => exact absurd (show false = true from hmesR) Bool.false_ne_true
        · rw [Bool.not_eq_true] at hvt
          rw [if_neg (by simp [hvt])]
          exact ⟨[], rfl, fun t ht => absurd ht (List.not_mem_nil t)⟩
    obtain ⟨t1, ht1, hpost1⟩ := hparams
    obtain ⟨t2, ht2, hpost2⟩ := hms
    refine ⟨t1 ++ t2, ?_, ?_⟩
    · simp only [← bind_assoc]
      simp only [← bind_assoc] at ht1 ht2
      rw [ht1, exceptOkBind, ht2, exceptOkBind]
      rfl
    · intro t ht
      rcases List.mem_append.mp ht with h1 | h1
      · exact hpost1 t h1
      · exact hpost2 t h1
  obtain ⟨ls, hls, hpost⟩ := hmain
  refine ⟨ls.flatten, ?_, ?_⟩
  · rw [hls, exceptOkBind]
    rfl
  · intro t ht
    rw [List.mem_flatten] at ht
    obtain ⟨l2, hl2, htl⟩ := ht
    exact hpost l2 hl2 t htl

/-- C1 counterexample: a file whose content is not parseable JSON makes
`flatten_city_json` raise (the `json.load` exception propagates), rather
than returning an empty canonical-shaped result. -/
theorem flatten_unparseable_raises :
    flatten_city_json Option.none "city_raw_1"
      = Except.error "json.JSONDecodeError: unparseable file content" := rfl

/-- C1 amended: for payloads satisfying `wellFormedPayload` — a decidable
sufficient condition: the document is a dict; TIME_SERIES times are a
list of calendar-valid, in-range ISO strings; measurement and location
entries are dicts with safe time expressions and non-container values;
and each location's resolved city label (the groupby key) is a
non-container — `flatten_city_json` never raises and always returns a
frame with the canonical city/time/7-pollutant column header; in
particular, a file yielding no usable rows returns that empty
canonical-shaped frame.  Unparseable file content, by contrast, raises
(see the counterexample), as do a TIME_SERIES timestamp `pd.to_datetime`
rejects, a container-valued city reaching the groupby, or a
container-valued measurement value reaching `pd.to_numeric`. -/
theorem flatten_wellformed_no_raise :
    ∀ (j : Py) (stem : String), wellFormedPayload j stem = true →
      ∃ rows, flatten_city_json (some j) stem = Except.ok ⟨canonHeader, rows⟩ := by
  intro j stem hwf
  simp only [wellFormedPayload] at hwf
  rw [Bool.and_eq_true] at hwf
  obtain ⟨hdict, hbody⟩ := hwf
  simp only [flatten_city_json]
  rw [if_neg (by simp [hdict])]
  by_cases hts : ((pyGet j "hourly").isDict
      && pyTruthy (pyGet (pyGet j "hourly") "time")) = true
  · rw [if_pos hts] at hbody
    rw [if_pos hts]
    cases htime : pyGet (pyGet j "hourly") "time" with
    | list ts =>
      rw [htime] at hbody
      have hall : ts.all (fun t =>
          match t with | .str s => (parseIso s).isSome | _ => false) = true := hbody
      rw [List.all_eq_true] at hall
      have hper : ∀ it ∈ ts.enum, ∃ b,
          (toDatetimeStrict it.2 >>= fun ts2 =>
            pure (tsRec (resolveCity Py.none j stem) ts2 (pyGet j "hourly") it.1))
            = Except.ok b := by
        intro it hit
        have h2 := hall it.2 (snd_mem_of_mem_enum hit)
        cases hc : it.2 with
        | str s =>
          rw [hc] at h2
          have h3 : (parseIso s).isSome = true := h2
          rw [Option.isSome_iff_exists] at h3
          obtain ⟨t, ht⟩ := h3
          refine ⟨tsRec (resolveCity Py.none j stem) t (pyGet j "hourly") it.1, ?_⟩
          rw [show toDatetimeStrict (Py.str s) = Except.ok t by
            simp [toDatetimeStrict, ht]]
          rfl
        | none => rw [hc] at h2; exact absurd (show false = true from h2) Bool.false_ne_true
        | bool b => rw [hc] at h2; exact absurd (show false = true from h2) Bool.false_ne_true
        | num x => rw [hc] at h2; exact absurd (show false = true from h2) Bool.false_ne_true
        | list l2 => rw [hc] at h2; exact absurd (show false = true from h2) Bool.false_ne_true
        | dict fs => rw [hc] at h2; exact absurd (show false = true from h2) Bool.false_ne_true
        | timestamp t => rw [hc] at h2; exact absurd (show false = true from h2) Bool.false_ne_true
      obtain ⟨rows, hrows⟩ := exceptMapM_ok _ ts.enum hper
      exact ⟨rows, except_bind_ok_of rfl (except_bind_ok_of hrows rfl)⟩
    | none => rw [htime] at hbody; exact absurd (show false = true from hbody) Bool.false_ne_true
    | bool b => rw [htime] at hbody; exact absurd (show false = true from hbody) Bool.false_ne_true
    | num x => rw [htime] at hbody; exact absurd (show false = true from hbody) Bool.false_ne_true
    | str s => rw [htime] at hbody; exact absurd (show false = true from hbody) Bool.false_ne_true
    | dict fs => rw [htime] at hbody; exact absurd (show false = true from hbody) Bool.false_ne_true
    | timestamp t => rw [htime] at hbody; exact absurd (show false = true from hbody) Bool.false_ne_true
  · rw [if_neg hts] at hbody
    rw [if_neg hts]
    simp only [collectMeasurements]
    by_cases hv2 : (pyHasKey j "results" && (pyGet j "results").isList) = true
    · rw [if_pos hv2] at hbody
      rw [if_pos hv2]
      rw [List.all_eq_true] at hbody
      obtain ⟨ms, hms, hpost⟩ := collectV2_ok (resolveCity Py.none j stem)
        (pyGet j "results").elems hbody
      exact ⟨hourlyAggregate ms, except_bind_ok_of hms
        (except_bind_ok_of (hourlyAggregateE_ok hpost) rfl)⟩
    · rw [if_neg hv2] at hbody
      rw [if_neg hv2]
      by_cases hv3 : (pyHasKey j "locations" && (pyGet j "locations").isList) = true
      · rw [if_pos hv3] at hbody
        rw [if_pos hv3]
        rw [List.all_eq_true] at hbody
        obtain ⟨ms, hms, hpost⟩ := collectV3_ok (resolveCity Py.none j stem)
          (pyGet j "locations").elems hbody
        exact ⟨hourlyAggregate ms, except_bind_ok_of hms
          (except_bind_ok_of (hourlyAggregateE_ok hpost) rfl)⟩
      · rw [if_neg hv3] at hbody
        rw [if_neg hv3]
        rw [Bool.and_eq_true] at hbody
        obtain ⟨hall, hcityOr⟩ := hbody
        rw [List.all_eq_true] at hall
        obtain ⟨ms, hms, hpost⟩ := exceptMapM_ok_post
          (tupleWalk (resolveCity Py.none j stem)) (walkMeasurements j)
          (fun t => t.city.isHashable = true ∧ t.value.isHashable = true)
          (fun m hm => tupleWalk_ok _
            (by
              simp only [Bool.or_eq_true] at hcityOr
              rcases hcityOr with hemp | hh
              · rw [List.isEmpty_iff] at hemp
                rw [hemp] at hm
                exact absurd hm (List.not_mem_nil m)
              · exact hh)
            (hall m hm))
        exact ⟨hourlyAggregate ms, except_bind_ok_of hms
          (except_bind_ok_of (hourlyAggregateE_ok hpost) rfl)⟩

theorem flatten_wellformed_no_raise_witness :
    wellFormedPayload (Py.dict [("results", Py.list [])]) "x" = true
    ∧ ∃ rows, flatten_city_json (some (Py.dict [("results", Py.list [])])) "x"
        = Except.ok ⟨canonHeader, rows⟩ :=
  ⟨by decide,
   flatten_wellformed_no_raise (Py.dict [("results", Py.list [])]) "x" (by decide)⟩

end ETLAir
